import Mathlib

/-!
Verification of the `currly` HTTP request-template library.

The Go source is embedded shallowly: Go strings become lists of bytes
(`Str := List Nat`), Go structs become Lean structures, the interface
`variable` becomes the inductive `Variable` with one constructor per
implementation, and the stateful invocation closure produced by `Build`
becomes an explicit state-passing function (`invokeOnce`) that returns
the updated captured template together with the call's outcome.
External collaborators (`http.NewRequest`, the `Connector`, the
`ResultExtractor`) are abstracted at their interface boundary as
function parameters, exactly as the spec treats them.
-/

/-- Go strings are arbitrary byte sequences; we model them as lists of
byte values. -/
abbrev Str := List Nat

/-- Bytes of an ASCII string literal (all literals used below are ASCII,
so char codes coincide with Go's UTF-8 bytes). -/
def ascii (s : String) : Str := s.data.map Char.toNat

/-- The single-quote byte (avoids embedding the quote in string literals). -/
def quoteByte : Str := [39]

/-- Upper-case hex digit byte for a value below 16, as in Go `net/url`. -/
def hexUpper (n : Nat) : Nat := if n < 10 then 48 + n else 55 + n

/-- ASCII letter or digit, the unconditionally unescaped class of Go
`net/url.shouldEscape`. -/
def isAlphaNum (c : Nat) : Bool :=
  (65 ≤ c && c ≤ 90) || (97 ≤ c && c ≤ 122) || (48 ≤ c && c ≤ 57)

/-- Go `net/url.shouldEscape` for mode `encodeQueryComponent`:
only alphanumerics and `-` `_` `.` `~` stay unescaped. -/
def shouldEscapeQuery (c : Nat) : Bool :=
  !(isAlphaNum c || c == 45 || c == 95 || c == 46 || c == 126)

/-- Go `net/url.shouldEscape` for mode `encodePathSegment`: alphanumerics
and `-` `_` `.` `~` stay unescaped; of the reserved set
`$ & + , / : ; = ? @` only `/` `;` `,` `?` are escaped; all other bytes
are escaped. -/
def shouldEscapePathSegment (c : Nat) : Bool :=
  if isAlphaNum c then false
  else if c == 45 || c == 95 || c == 46 || c == 126 then false
  else if c == 36 || c == 38 || c == 43 || c == 58 || c == 61 || c == 64 then false
  else true

/-- Go `url.QueryEscape`: space becomes `+`, unescaped bytes pass through,
all other bytes become `%XX` with upper-case hex. -/
def queryEscape (s : Str) : Str :=
  s.flatMap fun c =>
    if c == 32 then [43]
    else if shouldEscapeQuery c then [37, hexUpper (c / 16), hexUpper (c % 16)]
    else [c]

/-- Go `url.PathEscape` (mode `encodePathSegment`): unescaped bytes pass
through, all other bytes (space included) become `%XX`. -/
def pathEscape (s : Str) : Str :=
  s.flatMap fun c =>
    if shouldEscapePathSegment c then [37, hexUpper (c / 16), hexUpper (c % 16)]
    else [c]

/-- Decimal digits of a number, as bytes (Go `strconv.FormatUint(n, 10)`). -/
def decimalDigits (n : Nat) : Str :=
  if h : n < 10 then [48 + n]
  else decimalDigits (n / 10) ++ [48 + n % 10]
decreasing_by exact Nat.div_lt_self (Nat.lt_of_lt_of_le (by decide) (Nat.le_of_not_lt h)) (by decide)

/-- The Go interface `variable` with its four implementations
(`pathSegment`, `pathParam`, `querySegment`, `queryParam`). -/
inductive Variable : Type where
  | pathSegment (name : Str)
  | pathParam (name : Str) (value : Str)
  | querySegment (name : Str) (value : Str)
  | queryParam (name : Str) (value : Str)
deriving DecidableEq

/-- The `varName()` method of each `variable` implementation. -/
def Variable.varName : Variable → Str
  | .pathSegment name => name
  | .pathParam name _ => name
  | .querySegment name _ => name
  | .queryParam name _ => name

/-- The `bindTo(value)` method: Go mutates the receiver and reports
success; we return `some` of the updated variable on success and `none`
on failure.  Static variants (`pathSegment`, `querySegment`) always
fail; bindable variants (`pathParam`, `queryParam`) store the value and
succeed. -/
def Variable.bindTo : Variable → Str → Option Variable
  | .pathSegment _, _ => none
  | .pathParam name _, value => some (.pathParam name value)
  | .querySegment _ _, _ => none
  | .queryParam name _, value => some (.queryParam name value)

/-- Whether `bindTo` succeeds on this variable. -/
def Variable.bindable : Variable → Bool
  | .pathSegment _ => false
  | .pathParam _ _ => true
  | .querySegment _ _ => false
  | .queryParam _ _ => true

/-- The `String()` method of each `variable` implementation:
a `pathSegment` renders its name verbatim; a `pathParam` renders empty
until bound to a non-empty value, else its path-escaped value; a
`querySegment` always renders `name=value` (query-escaped); a
`queryParam` renders empty while its value is empty, else
`name=value` (query-escaped). -/
def Variable.render : Variable → Str
  | .pathSegment name => name
  | .pathParam _ value => if value.length = 0 then [] else pathEscape value
  | .querySegment name value => queryEscape name ++ [61] ++ queryEscape value
  | .queryParam name value =>
      if value.length = 0 then [] else queryEscape name ++ [61] ++ queryEscape value

/-- The `copy()` method: static variants return the same pointer,
bindable variants a fresh value copy — in a value model both are the
identity. -/
def Variable.copy : Variable → Variable
  | .pathSegment name => .pathSegment name
  | .pathParam name value => .pathParam name value
  | .querySegment name value => .querySegment name value
  | .queryParam name value => .queryParam name value

/-- The Go struct `credentials`. -/
structure credentials where
  username : Str
  password : Str
deriving DecidableEq

/-- The package-level zero value `emptyCredentials`. -/
def emptyCredentials : credentials := ⟨[], []⟩

/-- The Go struct `urlTemplate`. -/
structure urlTemplate where
  scheme : Str := []
  host : Str := []
  port : Nat := 0
  path : List Variable := []
  query : List Variable := []
deriving DecidableEq

/-- `http.Header`: a map from header name to ordered value list, modelled
as an association list. -/
abbrev HttpHeader := List (Str × List Str)

/-- The Go struct `curlTemplate`.  The `connector` and `resultExtractor`
fields hold external interface values; they are passed to `invokeOnce`
as function parameters instead of being stored (the extractor parameter
stands for the declared extractor or, when none was declared, the
default one substituted by `complete`). -/
structure curlTemplate where
  method : Str := []
  urlTemplate : urlTemplate := {}
  header : Option HttpHeader := none
  credentials : credentials := emptyCredentials
  body : Option Str := none
  error : Option Str := none
deriving DecidableEq

/-- The loop in `urlString` that renders a variable list: each variable
whose rendering is non-empty is appended, preceded by `sep` when the
accumulator is already non-empty. -/
def renderLoop (sep : Str) (vs : List Variable) : Str :=
  vs.foldl
    (fun acc v =>
      let s := v.render
      if 0 < s.length then (if 0 < acc.length then acc ++ sep else acc) ++ s else acc)
    []

/-- Go `urlString`: `scheme://host`, `:port` when the port is non-zero,
`/` plus the non-empty path renderings joined by `/`, and `?` plus the
non-empty query renderings joined by `&` (each tail piece only when
non-empty). -/
def urlString (ut : urlTemplate) : Str :=
  let url := ut.scheme ++ ascii "://" ++ ut.host
  let url := if 0 < ut.port then url ++ [58] ++ decimalDigits ut.port else url
  let path := renderLoop [47] ut.path
  let url := if 0 < path.length then url ++ [47] ++ path else url
  let query := renderLoop [38] ut.query
  if 0 < query.length then url ++ [63] ++ query else url


/-- The error message of `PathArg` when no binding succeeds:
`failed to bind value '<value>' to URL path parameter '<name>'`. -/
def pathArgErrMsg (name value : Str) : Str :=
  ascii "failed to bind value " ++ quoteByte ++ value ++ quoteByte ++
    ascii " to URL path parameter " ++ quoteByte ++ name ++ quoteByte

/-- The error message of `QueryArg` when no binding succeeds. -/
def queryArgErrMsg (name value : Str) : Str :=
  ascii "failed to bind value " ++ quoteByte ++ value ++ quoteByte ++
    ascii " to URL query parameter " ++ quoteByte ++ name ++ quoteByte

/-- The scan loop shared by `PathArg` and `QueryArg`: walk the list in
declaration order, and at the first variable whose name matches and
whose `bindTo` succeeds, replace it with the bound variable
(`bindTo` is only attempted after the name matches, and a failed
`bindTo` leaves the variable unchanged and continues the scan).
`none` means no variable accepted the value. -/
def bindFirst (name value : Str) : List Variable → Option (List Variable)
  | [] => none
  | v :: vs =>
    if v.varName = name then
      match v.bindTo value with
      | some v2 => some (v2 :: vs)
      | none => (bindFirst name value vs).map (v :: ·)
    else
      (bindFirst name value vs).map (v :: ·)

deriving instance DecidableEq for Except

/-- The `Arg` values this development needs: `PathArg name value`,
`QueryArg name value`, and `JSONBodyArg`.  A `JSONBodyArg` value in Go
captures the payload, a `sync.Once` cell, and per-call locals `bs`/`err`
declared inside the closure; we model the `json.Marshal` outcome of the
captured payload as `encodeResult` and the `sync.Once` state as
`onceDone`. -/
inductive Arg : Type where
  | pathArg (name value : Str)
  | queryArg (name value : Str)
  | jsonBodyArg (encodeResult : Except Str Str) (onceDone : Bool)
deriving DecidableEq

/-- `http.Header.Set`: replace the entry for the key (the keys used here
are already in canonical MIME form). -/
def headerSet (h : HttpHeader) (key : Str) (value : Str) : HttpHeader :=
  match h with
  | [] => [(key, [value])]
  | (k, v) :: rest =>
    if k = key then (key, [value]) :: rest else (k, v) :: headerSet rest key value

/-- The `Content-Type` header set by `JSONBodyArg`. -/
def jsonContentType : Str × Str :=
  (ascii "Content-Type", ascii "application/json; charset=utf-8")

/-- `applyTo` of one `Arg` on the invocation snapshot.  Returns the
updated `Arg` (its `sync.Once` state may change), the updated snapshot,
and the error, mirroring the three argFunc bodies:

* `PathArg`/`QueryArg` scan only their own variable list and report the
  parameter-naming error when no binding succeeds;
* `JSONBodyArg` runs `once.Do` — the marshal executes only on the first
  application, and `bs`/`err` are locals of the call, so a later
  application sees the zero values `nil`/`nil` — then on `err == nil`
  ensures a header map exists, sets the `Content-Type` header, and sets
  the snapshot body to a reader over `bs`. -/
def applyArg : Arg → curlTemplate → Arg × curlTemplate × Option Str
  | .pathArg name value, ct =>
    (match bindFirst name value ct.urlTemplate.path with
     | some path2 =>
       (.pathArg name value, { ct with urlTemplate := { ct.urlTemplate with path := path2 } }, none)
     | none => (.pathArg name value, ct, some (pathArgErrMsg name value)))
  | .queryArg name value, ct =>
    (match bindFirst name value ct.urlTemplate.query with
     | some query2 =>
       (.queryArg name value, { ct with urlTemplate := { ct.urlTemplate with query := query2 } }, none)
     | none => (.queryArg name value, ct, some (queryArgErrMsg name value)))
  | .jsonBodyArg encodeResult onceDone, ct =>
    let run := !onceDone
    let bs : Str := if run then (match encodeResult with | .ok b => b | .error _ => []) else []
    let err : Option Str :=
      if run then (match encodeResult with | .error e => some e | .ok _ => none) else none
    let arg2 : Arg := .jsonBodyArg encodeResult true
    match err with
    | some e => (arg2, ct, some e)
    | none =>
      let h := match ct.header with | none => [] | some h => h
      let h := headerSet h jsonContentType.1 jsonContentType.2
      (arg2, { ct with header := some h, body := some bs }, none)

/-- The argument loop of `complete`: apply each `Arg` in order; at the
first error record it in the snapshot's `error` field and stop (later
arguments are not applied).  The updated `Arg` values are returned
because their internal state outlives the call in Go. -/
def applyArgs : List Arg → curlTemplate → List Arg × curlTemplate
  | [], ct => ([], ct)
  | a :: rest, ct =>
    let (a2, ct2, err) := applyArg a ct
    match err with
    | some e => (a2 :: rest, { ct2 with error := some e })
    | none =>
      let (rest2, ct3) := applyArgs rest ct2
      (a2 :: rest2, ct3)

/-- `copyHeader`: a fresh map with fresh value slices — the identity in a
value model. -/
def copyHeader : Option HttpHeader → Option HttpHeader
  | none => none
  | some h => some (h.map fun kv => (kv.1, kv.2.map id))

/-- `copyVariables`: element-wise `copy()`. -/
def copyVariables (vs : List Variable) : List Variable := vs.map Variable.copy

/-- `copyURLTemplate`: fresh path and query slices. -/
def copyURLTemplate (ut : urlTemplate) : urlTemplate :=
  { ut with path := copyVariables ut.path, query := copyVariables ut.query }

/-- `copyCurlTemplate`: the deep copy taken at the start of every
invocation (Go's `copyHeader` also turns a `nil` header into an empty
map value, but the copied struct field keeps `nil`-ness only through
`make(http.Header, 0)` being non-nil; we keep the observationally
relevant part: path, query and header contents are fresh). -/
def copyCurlTemplate (ct : curlTemplate) : curlTemplate :=
  { ct with urlTemplate := copyURLTemplate ct.urlTemplate, header := copyHeader ct.header }

/-- `complete`: deep-copy the template, substitute the default result
extractor when none is set (represented by the extractor parameter of
`invokeOnce`), then apply the arguments in order, stopping at the first
failure. -/
def complete (ct : curlTemplate) (args : List Arg) : List Arg × curlTemplate :=
  applyArgs args (copyCurlTemplate ct)

/-- The assembled `http.Request`, at the boundary the spec gives it:
method, full URL, optional body, header map, and whether/with what
basic-auth was applied (`SetBasicAuth`). -/
structure Request where
  method : Str
  url : Str
  body : Option Str
  header : HttpHeader
  basicAuth : Option (Str × Str)
deriving DecidableEq

/-- An `http.Response` at the boundary the core consumes: status code
and body bytes. -/
structure Response where
  status : Nat
  body : Str
deriving DecidableEq

/-- Map assignment `r.Header[k] = v`: replace the whole value list for
the key. -/
def headerAssign (h : HttpHeader) (key : Str) (values : List Str) : HttpHeader :=
  match h with
  | [] => [(key, values)]
  | (k, v) :: rest =>
    if k = key then (key, values) :: rest else (k, v) :: headerAssign rest key values

/-- `createRequest`: build the request via `http.NewRequest` (an external
function, abstracted as the parameter `newRequest`), copy the declared
header entries into the request (`r.Header[k] = v`, overwriting), and
apply basic auth exactly when the credentials differ from
`emptyCredentials`. -/
def createRequest (newRequest : Str → Str → Option Str → Except Str Request)
    (ct : curlTemplate) : Except Str Request :=
  match newRequest ct.method (urlString ct.urlTemplate) ct.body with
  | .error e => .error e
  | .ok r =>
    let r :=
      match ct.header with
      | none => r
      | some h => { r with header := h.foldl (fun acc kv => headerAssign acc kv.1 kv.2) r.header }
    let r :=
      if ct.credentials ≠ emptyCredentials then
        { r with basicAuth := some (ct.credentials.username, ct.credentials.password) }
      else r
    .ok r

/-- Everything one call of the `CurlFunc` closure produces: the value the
captured `ct` variable holds afterwards (the closure executes
`ct = complete(ct, args)`), the request handed to the connector (when one
was assembled), the returned `(status, value, error)` triple, and
whether the connector / extractor were reached. -/
structure Outcome (α : Type) where
  newCT : curlTemplate
  request : Option Request
  status : Nat
  value : Option α
  error : Option Str
  sendInvoked : Bool
  extractInvoked : Bool
deriving DecidableEq

/-- One call of the closure returned by `Build`, with the external
collaborators as parameters: `newRequest` for `http.NewRequest`, `conn`
for the connector's `Send`, `extract` for the result extractor's
`Result`.  Mirrors the closure body: complete the snapshot (assigning it
back to the captured template), fail fast on a recorded error, create
the request, send it, extract the result — a transport failure returns
`(0, nil, err)` before extraction, an extraction failure returns the
response's status alongside the error. -/
def invokeOnce {α : Type} (newRequest : Str → Str → Option Str → Except Str Request)
    (conn : Request → Except Str Response) (extract : Response → Except Str α)
    (ct0 : curlTemplate) (args : List Arg) : Outcome α :=
  let ct := (complete ct0 args).2
  match ct.error with
  | some e => ⟨ct, none, 0, none, some e, false, false⟩
  | none =>
    match createRequest newRequest ct with
    | .error e => ⟨ct, none, 0, none, some e, false, false⟩
    | .ok req =>
      match conn req with
      | .error e => ⟨ct, some req, 0, none, some e, true, false⟩
      | .ok resp =>
        match extract resp with
        | .error e => ⟨ct, some req, resp.status, none, some e, true, true⟩
        | .ok v => ⟨ct, some req, resp.status, some v, none, true, true⟩

/-- The builder step `Credentials(username, password)`: value receiver,
returns a new template with the credentials struct set. -/
def curlTemplate.Credentials (ct : curlTemplate) (username password : Str) : curlTemplate :=
  { ct with credentials := ⟨username, password⟩ }

/-- The builder step `Header(header)`. -/
def curlTemplate.Header (ct : curlTemplate) (header : HttpHeader) : curlTemplate :=
  { ct with header := some header }

/-- A bindable variable with its value replaced (what a successful
`bindTo` stores); static variants are returned unchanged. -/
def boundVar : Variable → Str → Variable
  | .pathParam name _, value => .pathParam name value
  | .queryParam name _, value => .queryParam name value
  | v, _ => v

/-- `needle` occurs contiguously inside `hay` (the error message "names"
the parameter). -/
def containsStr (needle hay : Str) : Prop := ∃ s t, hay = s ++ needle ++ t

/-- Non-empty pieces joined by a separator (the shape the spec describes
for assembled path/query strings). -/
def sepJoin (sep : Str) : List Str → Str
  | [] => []
  | s :: rest => s ++ rest.flatMap (fun t => sep ++ t)

/-- The fold of `urlString`'s render loops, over already-rendered
pieces. -/
def foldJoin (sep : Str) (ss : List Str) : Str :=
  ss.foldl
    (fun acc s => if 0 < s.length then (if 0 < acc.length then acc ++ sep else acc) ++ s else acc)
    []

namespace GoBuild

/-!
A second, lower-level embedding of the builder steps that models Go
slice semantics (length, capacity, shared backing arrays) instead of
pure lists, because `PathSegment`/`QuerySegment`/... grow the template's
variable lists with `append`, and `append` writes into the existing
backing array when spare capacity is available.
-/

/-- A Go slice header: backing-array id, length, capacity. -/
structure GoSlice where
  arrId : Nat
  len : Nat
  cap : Nat
deriving DecidableEq

/-- The store of backing arrays, indexed by id. -/
structure Mem where
  arrays : List (List Variable)
deriving DecidableEq

/-- Read a backing array (only indices below some slice's `len` are ever
observed). -/
def readArr (m : Mem) (i : Nat) : List Variable := (m.arrays.get? i).getD []

/-- Overwrite a backing array. -/
def writeArr (m : Mem) (i : Nat) (a : List Variable) : Mem := ⟨m.arrays.set i a⟩

/-- Write one cell of a backing array (appends when the cell is the
first never-written one). -/
def writeAt (l : List Variable) (i : Nat) (x : Variable) : List Variable :=
  if i < l.length then l.set i x else l ++ [x]

/-- Capacity growth of `append` for the small slices at hand: 0 → 1,
then doubling (Go `growslice` with 16-byte interface elements). -/
def grownCap (c : Nat) : Nat := if c = 0 then 1 else 2 * c

/-- The zero-value (nil) slice. -/
def nilSlice : GoSlice := ⟨0, 0, 0⟩

/-- Go `append(s, x)`: with spare capacity, write in place into the
shared backing array; otherwise allocate a fresh array holding the old
elements plus `x`. -/
def goAppend (m : Mem) (s : GoSlice) (x : Variable) : Mem × GoSlice :=
  if s.len < s.cap then
    (writeArr m s.arrId (writeAt (readArr m s.arrId) s.len x), ⟨s.arrId, s.len + 1, s.cap⟩)
  else
    (⟨m.arrays ++ [(readArr m s.arrId).take s.len ++ [x]]⟩,
     ⟨m.arrays.length, s.len + 1, grownCap s.cap⟩)

/-- The elements of a slice. -/
def view (m : Mem) (s : GoSlice) : List Variable := (readArr m s.arrId).take s.len

/-- The builder-stage `curlTemplate` under slice semantics (the fields
the path/query builder steps touch, plus the scalar fields they copy). -/
structure bCurlTemplate where
  method : Str := []
  scheme : Str := []
  host : Str := []
  port : Nat := 0
  path : GoSlice := nilSlice
  query : GoSlice := nilSlice
deriving DecidableEq

/-- Builder step `PathSegment(name)` under slice semantics. -/
def PathSegment (m : Mem) (ct : bCurlTemplate) (name : Str) : Mem × bCurlTemplate :=
  let (m2, s2) := goAppend m ct.path (.pathSegment name)
  (m2, { ct with path := s2 })

/-- Builder step `PathParam(name)` under slice semantics. -/
def PathParam (m : Mem) (ct : bCurlTemplate) (name : Str) : Mem × bCurlTemplate :=
  let (m2, s2) := goAppend m ct.path (.pathParam name [])
  (m2, { ct with path := s2 })

/-- Builder step `QuerySegment(name, value)` under slice semantics. -/
def QuerySegment (m : Mem) (ct : bCurlTemplate) (name value : Str) : Mem × bCurlTemplate :=
  let (m2, s2) := goAppend m ct.query (.querySegment name value)
  (m2, { ct with query := s2 })

/-- Builder step `QueryParam(name)` under slice semantics. -/
def QueryParam (m : Mem) (ct : bCurlTemplate) (name : Str) : Mem × bCurlTemplate :=
  let (m2, s2) := goAppend m ct.query (.queryParam name [])
  (m2, { ct with query := s2 })

end GoBuild

/-- A concrete `http.NewRequest` model for the closed witness theorems:
always succeeds, transport-default header empty, no prior auth. -/
def newRequestD (method url : Str) (body : Option Str) : Except Str Request :=
  .ok ⟨method, url, body, [], none⟩

/-- A concrete connector for closed witness theorems: returns status 200
with an empty body. -/
def connD : Request → Except Str Response := fun _ => .ok ⟨200, []⟩

/-- A concrete result extractor for closed witness theorems. -/
def extractD : Response → Except Str Nat := fun _ => .ok 7

/-- The frozen template of the `C1` scenario: `GET http://h/{id}` with
one bindable path parameter `id`. -/
def c1Template : curlTemplate :=
  { method := ascii "GET",
    urlTemplate := { scheme := ascii "http", host := ascii "h",
                     path := [.pathParam (ascii "id") []] } }

lemma notIsEmpty_iff (s : Str) : (!s.isEmpty) = true ↔ 0 < s.length := by
  cases s <;> simp

lemma foldJoin_go (sep : Str) (ss : List Str) :
    ∀ acc : Str, 0 < acc.length →
      ss.foldl
          (fun acc s =>
            if 0 < s.length then (if 0 < acc.length then acc ++ sep else acc) ++ s else acc)
          acc
        = acc ++ (ss.filter fun s => !s.isEmpty).flatMap (fun t => sep ++ t) := by
  induction ss with
  | nil => intro acc _; simp
  | cons s ss ih =>
    intro acc h
    by_cases hs : 0 < s.length
    · have hne : (!s.isEmpty) = true := (notIsEmpty_iff s).mpr hs
      simp only [List.foldl_cons, List.filter_cons, hne, if_pos hs, if_pos h, if_true]
      rw [ih (acc ++ sep ++ s) (by simp; exact Or.inl h)]
      simp [List.append_assoc]
    · have hne : (!s.isEmpty) = false := by
        cases s
        · simp
        · exact absurd (by simp) hs
      simp only [List.foldl_cons, List.filter_cons, hne, if_neg hs]
      exact ih acc h

lemma foldJoin_eq_sepJoin (sep : Str) (ss : List Str) :
    foldJoin sep ss = sepJoin sep (ss.filter fun s => !s.isEmpty) := by
  induction ss with
  | nil => rfl
  | cons s ss ih =>
    by_cases hs : 0 < s.length
    · have hne : (!s.isEmpty) = true := (notIsEmpty_iff s).mpr hs
      simp only [foldJoin, List.foldl_cons, List.filter_cons, hne, if_pos hs, if_true]
      simp only [List.length_nil, Nat.lt_irrefl, if_false, List.nil_append]
      rw [foldJoin_go sep ss s hs]
      rfl
    · have hne : (!s.isEmpty) = false := by
        cases s
        · simp
        · exact absurd (by simp) hs
      simp only [foldJoin, List.foldl_cons, List.filter_cons, hne, if_neg hs]
      exact ih

lemma renderLoop_eq_foldJoin (sep : Str) (vs : List Variable) :
    renderLoop sep vs = foldJoin sep (vs.map Variable.render) := by
  simp only [renderLoop, foldJoin, List.foldl_map]

lemma renderLoop_eq_sepJoin (sep : Str) (vs : List Variable) :
    renderLoop sep vs
      = sepJoin sep ((vs.map Variable.render).filter fun s => !s.isEmpty) := by
  rw [renderLoop_eq_foldJoin, foldJoin_eq_sepJoin]

lemma Variable.bindTo_of_bindable (v : Variable) (val : Str) (h : v.bindable = true) :
    v.bindTo val = some (boundVar v val) := by
  cases v <;> simp [Variable.bindable] at h <;> simp [Variable.bindTo, boundVar]

lemma Variable.bindTo_of_static (v : Variable) (val : Str) (h : v.bindable = false) :
    v.bindTo val = none := by
  cases v <;> simp [Variable.bindable] at h <;> simp [Variable.bindTo]

lemma bindFirst_first_match (name value : Str) (vs₁ : List Variable) (v : Variable)
    (vs₂ : List Variable)
    (h₁ : ∀ u ∈ vs₁, ¬(u.varName = name ∧ u.bindable = true))
    (h₂ : v.varName = name) (h₃ : v.bindable = true) :
    bindFirst name value (vs₁ ++ v :: vs₂) = some (vs₁ ++ boundVar v value :: vs₂) := by
  induction vs₁ with
  | nil =>
    simp only [List.nil_append, bindFirst, h₂, if_pos]
    rw [Variable.bindTo_of_bindable v value h₃]
  | cons u vs₁ ih =>
    have hu := h₁ u (by simp)
    have ih2 := ih (fun w hw => h₁ w (by simp [hw]))
    simp only [List.cons_append, bindFirst]
    by_cases hn : u.varName = name
    · have hb : u.bindable = false := by
        cases hbb : u.bindable
        · rfl
        · exact absurd ⟨hn, hbb⟩ hu
      rw [if_pos hn, Variable.bindTo_of_static u value hb]
      simp only [List.append_eq]
      rw [ih2]
      rfl
    · rw [if_neg hn]
      simp only [List.append_eq]
      rw [ih2]
      rfl

lemma bindFirst_none (name value : Str) (vs : List Variable)
    (h : ∀ u ∈ vs, ¬(u.varName = name ∧ u.bindable = true)) :
    bindFirst name value vs = none := by
  induction vs with
  | nil => rfl
  | cons u vs ih =>
    have hu := h u (by simp)
    have ih2 := ih (fun w hw => h w (by simp [hw]))
    simp only [bindFirst]
    by_cases hn : u.varName = name
    · have hb : u.bindable = false := by
        cases hbb : u.bindable
        · rfl
        · exact absurd ⟨hn, hbb⟩ hu
      rw [if_pos hn, Variable.bindTo_of_static u value hb, ih2]
      rfl
    · rw [if_neg hn, ih2]
      rfl

lemma applyArgs_append (l₁ l₂ : List Arg) (ct : curlTemplate)
    (h : (applyArgs l₁ ct).2.error = none) :
    (applyArgs (l₁ ++ l₂) ct).2 = (applyArgs l₂ (applyArgs l₁ ct).2).2 := by
  induction l₁ generalizing ct with
  | nil => simp [applyArgs]
  | cons a l₁ ih =>
    rcases hA : applyArg a ct with ⟨a2, ct2, err⟩
    simp only [List.cons_append, applyArgs, hA] at h ⊢
    cases err with
    | some e => simp at h
    | none =>
      simp only at h ⊢
      rcases hR : applyArgs l₁ ct2 with ⟨rest2, ct3⟩
      simp only [hR] at h ⊢
      have := ih ct2
      rw [hR] at this
      exact this h

lemma urlString_query_split (ut : urlTemplate) :
    urlString ut
      = urlString { ut with query := [] }
        ++ (if 0 < (renderLoop [38] ut.query).length
            then [63] ++ renderLoop [38] ut.query else []) := by
  simp only [urlString, renderLoop, List.foldl_nil, List.length_nil, Nat.lt_irrefl, if_false]
  by_cases hq : 0 < (renderLoop [38] ut.query).length
  · simp only [renderLoop] at hq
    rw [if_pos hq, if_pos hq, List.append_assoc]
  · simp only [renderLoop] at hq
    rw [if_neg hq, if_neg hq, List.append_nil]

lemma urlString_path_split (ut : urlTemplate) :
    urlString { ut with query := [] }
      = urlString { ut with path := [], query := [] }
        ++ (if 0 < (renderLoop [47] ut.path).length
            then [47] ++ renderLoop [47] ut.path else []) := by
  simp only [urlString, renderLoop, List.foldl_nil, List.length_nil, Nat.lt_irrefl, if_false]
  by_cases hp : 0 < (renderLoop [47] ut.path).length
  · simp only [renderLoop] at hp
    rw [if_pos hp, if_pos hp, List.append_assoc]
  · simp only [renderLoop] at hp
    rw [if_neg hp, if_neg hp, List.append_nil]

lemma renderLoop_filter_invariant (sep : Str) (vs : List Variable) :
    renderLoop sep (vs.filter fun v => !v.render.isEmpty) = renderLoop sep vs := by
  rw [renderLoop_eq_sepJoin, renderLoop_eq_sepJoin]
  congr 1
  rw [List.filter_map, List.filter_map, List.filter_filter]
  apply congrArg
  apply List.filter_congr
  intro v _
  simp [Function.comp]

/-- C1: the claim says the closure's captured Template is unchanged by an
invocation, so no bound value from one invocation is visible in the
next.  The code's closure executes `ct = complete(ct, args)`, assigning
the completed snapshot back into the captured variable: after invoking
with `PathArg("id","a")` the captured template differs from the frozen
one, and a second invocation with no arguments assembles
`http://h/a` — the first invocation's bound value is visible in the
second request. -/
theorem c1_invocation_leakage :
    (invokeOnce newRequestD connD extractD c1Template [.pathArg (ascii "id") (ascii "a")]).newCT
        ≠ c1Template
      ∧ (invokeOnce newRequestD connD extractD
            (invokeOnce newRequestD connD extractD c1Template
              [.pathArg (ascii "id") (ascii "a")]).newCT
            []).request
          = some ⟨ascii "GET", ascii "http://h/a", none, [], none⟩ := by
  decide

/-- C2: the claim says a `JSONBodyArg`'s encoded bytes are memoized after
the first successful encode and an encoding failure is cached
permanently.  In the code `bs` and `err` are locals of the closure
while only `sync.Once` is shared, so the second application of the same
`Arg` value skips the marshal and is left with the zero values: it sets
the body to EMPTY bytes instead of the first encode's bytes, and after a
failed first encode the second application succeeds instead of
repeating the failure. -/
theorem c2_encode_not_memoized :
    (applyArg (.jsonBodyArg (.ok (ascii "P")) false) {}).1
        = .jsonBodyArg (.ok (ascii "P")) true
      ∧ (applyArg (.jsonBodyArg (.ok (ascii "P")) false) {}).2.1.body = some (ascii "P")
      ∧ (applyArg (.jsonBodyArg (.ok (ascii "P")) true) {}).2.1.body = some []
      ∧ (applyArg (.jsonBodyArg (.ok (ascii "P")) true) {}).2.2 = none
      ∧ (applyArg (.jsonBodyArg (.error (ascii "bad")) false) {}).2.2 = some (ascii "bad")
      ∧ (applyArg (.jsonBodyArg (.error (ascii "bad")) false) {}).1
          = .jsonBodyArg (.error (ascii "bad")) true
      ∧ (applyArg (.jsonBodyArg (.error (ascii "bad")) true) {}).2.2 = none := by
  decide

/-- C4: the claim says holding a partially built Template and calling two
declarative steps on it produces two Templates neither of which is
affected by the other call.  Because the builder steps append to a Go
slice, branching from a template whose path list has length 3 and
capacity 4 makes both branches write into the same backing array cell:
after the second branch's `PathSegment("y")`, the FIRST branch's
template — which ended in `x` right after its own call — now ends in
`y`. -/
theorem c4_builder_branch_aliasing :
    (let st1 := GoBuild.PathSegment ⟨[]⟩ {} (ascii "a")
     let st2 := GoBuild.PathSegment st1.1 st1.2 (ascii "b")
     let st3 := GoBuild.PathSegment st2.1 st2.2 (ascii "c")
     let brX := GoBuild.PathSegment st3.1 st3.2 (ascii "x")
     let brY := GoBuild.PathSegment brX.1 st3.2 (ascii "y")
     GoBuild.view brX.1 brX.2.path
         = [.pathSegment (ascii "a"), .pathSegment (ascii "b"), .pathSegment (ascii "c"),
            .pathSegment (ascii "x")]
       ∧ GoBuild.view brY.1 brX.2.path
           = [.pathSegment (ascii "a"), .pathSegment (ascii "b"), .pathSegment (ascii "c"),
              .pathSegment (ascii "y")]) := by
  decide

/-- C5 counterexample: the claim says a Template on which `Credentials`
was never called is distinguishable from one on which
`Credentials("","")` was called.  The credentials field is a value
struct whose zero value is the empty pair, so calling
`Credentials("","")` returns a template EQUAL to the untouched one:
the two are not distinguishable. -/
theorem c5_counterexample :
    curlTemplate.Credentials
        { method := ascii "GET",
          urlTemplate := { scheme := ascii "http", host := ascii "h" } } [] []
      = { method := ascii "GET",
          urlTemplate := { scheme := ascii "http", host := ascii "h" } } := by
  decide

/-- C6 counterexample: the claim says every query Variable with an empty
value is omitted entirely from the query string.  A static
`QuerySegment("a","")` renders `a=` (its `String()` method never checks
for an empty value), so the assembled URL is `http://h?a=`, not
`http://h`. -/
theorem c6_counterexample :
    urlString { scheme := ascii "http", host := ascii "h",
                query := [.querySegment (ascii "a") []] }
        = ascii "http://h?a="
      ∧ urlString { scheme := ascii "http", host := ascii "h",
                    query := [.querySegment (ascii "a") []] }
          ≠ ascii "http://h" := by
  decide

/-- C5 (amended): a Template on which `Credentials` was never called is
NOT distinguishable from one on which `Credentials("","")` was called —
both hold the zero credentials value, and `Credentials("","")` returns
the template unchanged.  At assembly time basic auth is applied to the
outgoing request exactly when the stored pair differs from the empty
pair (at least one component non-empty), and never when credentials are
absent. -/
theorem c5_amended (newRequest : Str → Str → Option Str → Except Str Request)
    (ct : curlTemplate) (r0 : Request)
    (h : newRequest ct.method (urlString ct.urlTemplate) ct.body = .ok r0) :
    (∀ ct2 : curlTemplate, ct2.credentials = emptyCredentials →
        curlTemplate.Credentials ct2 [] [] = ct2)
      ∧ ∃ r, createRequest newRequest ct = .ok r
          ∧ r.basicAuth
              = (if ct.credentials = emptyCredentials then r0.basicAuth
                 else some (ct.credentials.username, ct.credentials.password)) := by
  constructor
  · intro ct2 h2
    have h3 : (⟨[], []⟩ : credentials) = ct2.credentials := by rw [h2]; rfl
    show ({ ct2 with credentials := (⟨[], []⟩ : credentials) } : curlTemplate) = ct2
    rw [h3]
  · by_cases hc : ct.credentials = emptyCredentials
    · cases hh : ct.header with
      | none =>
        refine ⟨r0, ?_, ?_⟩
        · simp [createRequest, h, hh, hc]
        · simp [hc]
      | some hm =>
        refine ⟨{ r0 with header := hm.foldl (fun acc kv => headerAssign acc kv.1 kv.2) r0.header },
            ?_, ?_⟩
        · simp [createRequest, h, hh, hc]
        · simp [hc]
    · cases hh : ct.header with
      | none =>
        refine ⟨{ r0 with basicAuth := some (ct.credentials.username, ct.credentials.password) },
            ?_, ?_⟩
        · simp [createRequest, h, hh, hc]
        · simp [hc]
      | some hm =>
        refine ⟨{ r0 with
                  header := hm.foldl (fun acc kv => headerAssign acc kv.1 kv.2) r0.header,
                  basicAuth := some (ct.credentials.username, ct.credentials.password) }, ?_, ?_⟩
        · simp [createRequest, h, hh, hc]
        · simp [hc]

/-- C5 witness: declaring `Credentials("u","p")` makes the assembled
request carry basic auth `("u","p")`. -/
theorem c5_amended_witness :
    ∃ r, createRequest newRequestD
          (curlTemplate.Credentials { method := ascii "GET" } (ascii "u") (ascii "p")) = .ok r
        ∧ r.basicAuth = some (ascii "u", ascii "p") := by
  obtain ⟨-, r, hr, hb⟩ := c5_amended newRequestD
    (curlTemplate.Credentials { method := ascii "GET" } (ascii "u") (ascii "p"))
    ⟨ascii "GET",
     urlString (curlTemplate.Credentials { method := ascii "GET" } (ascii "u") (ascii "p")).urlTemplate,
     none, [], none⟩ rfl
  refine ⟨r, hr, ?_⟩
  rw [hb]
  decide

/-- C6 (amended): in an assembled URL, a bindable `QueryParam` whose
value is the empty string renders empty and is omitted; a static
`QuerySegment` is ALWAYS rendered — with an empty value it contributes
the empty-value pair `name=` — and every rendered entry is
percent-encoded-name `=` percent-encoded-value, the non-empty renderings
joined by `&` after a single `?` (the `?` itself omitted when no
rendering survives). -/
theorem c6_amended (ut : urlTemplate) :
    urlString ut
        = urlString { ut with query := [] }
          ++ (if 0 < (sepJoin [38] ((ut.query.map Variable.render).filter fun s => !s.isEmpty)).length
              then [63] ++ sepJoin [38] ((ut.query.map Variable.render).filter fun s => !s.isEmpty)
              else [])
      ∧ (∀ n v : Str, (Variable.queryParam n v).render
            = if v.length = 0 then [] else queryEscape n ++ [61] ++ queryEscape v)
      ∧ (∀ n v : Str, (Variable.querySegment n v).render
            = queryEscape n ++ [61] ++ queryEscape v) := by
  refine ⟨?_, fun n v => rfl, fun n v => rfl⟩
  rw [urlString_query_split ut, renderLoop_eq_sepJoin]

/-- C8: with path `[segment "api", param "id"]` and `id` unbound the URL
is `http://h/api` — no trailing slash, no empty segment; in general an
unbound path parameter renders empty, variables with empty renderings
are entirely absent from the assembled URL, and `/` separators appear
only between the surviving non-empty path renderings. -/
theorem c8_unbound_path_params_omitted :
    urlString { scheme := ascii "http", host := ascii "h",
                path := [.pathSegment (ascii "api"), .pathParam (ascii "id") []] }
        = ascii "http://h/api"
      ∧ (∀ n : Str, (Variable.pathParam n []).render = [])
      ∧ (∀ ut : urlTemplate,
           urlString { ut with path := ut.path.filter fun v => !v.render.isEmpty }
             = urlString ut)
      ∧ (∀ ut : urlTemplate,
           urlString { ut with query := [] }
             = urlString { ut with path := [], query := [] }
               ++ (if 0 < (sepJoin [47]
                       ((ut.path.map Variable.render).filter fun s => !s.isEmpty)).length
                   then [47]
                     ++ sepJoin [47] ((ut.path.map Variable.render).filter fun s => !s.isEmpty)
                   else [])) := by
  refine ⟨by decide, fun n => rfl, ?_, ?_⟩
  · intro ut
    simp only [urlString]
    rw [renderLoop_filter_invariant]
  · intro ut
    rw [urlString_path_split ut, renderLoop_eq_sepJoin]

/-- C7: `PathArg(name,value)` scans only the path list and
`QueryArg(name,value)` only the query list, in declaration order, and
binds the value to the first variable whose name matches AND whose bind
succeeds: name-matching static variables (whose bind always fails) are
skipped, a later bindable duplicate receives the value, and duplicates
after the first successful match stay untouched (the tail `vs₂` and the
other variable list are returned unchanged). -/
theorem c7_first_bindable_match (n val : Str) (ct : curlTemplate) (vs₁ vs₂ : List Variable)
    (v : Variable)
    (hskip : ∀ u ∈ vs₁, ¬(u.varName = n ∧ u.bindable = true))
    (hname : v.varName = n) (hbind : v.bindable = true) :
    (ct.urlTemplate.path = vs₁ ++ v :: vs₂ →
       applyArg (.pathArg n val) ct
         = (.pathArg n val,
            { ct with urlTemplate := { ct.urlTemplate with path := vs₁ ++ boundVar v val :: vs₂ } },
            none))
      ∧ (ct.urlTemplate.query = vs₁ ++ v :: vs₂ →
           applyArg (.queryArg n val) ct
             = (.queryArg n val,
                { ct with urlTemplate :=
                    { ct.urlTemplate with query := vs₁ ++ boundVar v val :: vs₂ } },
                none)) := by
  constructor
  · intro hp
    simp only [applyArg, hp, bindFirst_first_match n val vs₁ v vs₂ hskip hname hbind]
  · intro hq
    simp only [applyArg, hq, bindFirst_first_match n val vs₁ v vs₂ hskip hname hbind]

/-- C7 witness: path list `[segment "p", param "p", param "p"]` — the
static name-matching variable is skipped, the first bindable duplicate
receives the value, the later duplicate stays unbound. -/
theorem c7_witness :
    applyArg (.pathArg (ascii "p") (ascii "v"))
        { urlTemplate := { path := [.pathSegment (ascii "p"), .pathParam (ascii "p") [],
                                    .pathParam (ascii "p") []] } }
      = (.pathArg (ascii "p") (ascii "v"),
         { urlTemplate := { path := [.pathSegment (ascii "p"),
                                     .pathParam (ascii "p") (ascii "v"),
                                     .pathParam (ascii "p") []] } },
         none) := by
  have h := (c7_first_bindable_match (ascii "p") (ascii "v")
      { urlTemplate := { path := [.pathSegment (ascii "p"), .pathParam (ascii "p") [],
                                  .pathParam (ascii "p") []] } }
      [.pathSegment (ascii "p")] [.pathParam (ascii "p") []] (.pathParam (ascii "p") [])
      (by decide) (by decide) (by decide)).1 (by decide)
  rw [h]
  decide

/-- C10: binding the empty string to a declared bindable path (or query)
parameter succeeds — no binding error is reported when a matching
bindable variable exists — and the resulting snapshot is exactly the
snapshot in which that parameter holds the empty string, i.e. was never
bound, so it assembles exactly the same URL. -/
theorem c10_bind_empty_string (n w : Str) (ct : curlTemplate) (vs₁ vs₂ : List Variable)
    (hskip : ∀ u ∈ vs₁, ¬(u.varName = n ∧ u.bindable = true)) :
    (ct.urlTemplate.path = vs₁ ++ .pathParam n w :: vs₂ →
       ∃ ct2 : curlTemplate,
         applyArg (.pathArg n []) ct = (.pathArg n [], ct2, none)
           ∧ urlString ct2.urlTemplate
               = urlString { ct.urlTemplate with path := vs₁ ++ .pathParam n [] :: vs₂ })
      ∧ (ct.urlTemplate.query = vs₁ ++ .queryParam n w :: vs₂ →
           ∃ ct2 : curlTemplate,
             applyArg (.queryArg n []) ct = (.queryArg n [], ct2, none)
               ∧ urlString ct2.urlTemplate
                   = urlString { ct.urlTemplate with query := vs₁ ++ .queryParam n [] :: vs₂ }) := by
  constructor
  · intro hp
    refine ⟨{ ct with urlTemplate :=
        { ct.urlTemplate with path := vs₁ ++ .pathParam n [] :: vs₂ } }, ?_, rfl⟩
    have hb := bindFirst_first_match n [] vs₁ (.pathParam n w) vs₂ hskip rfl rfl
    simp only [applyArg, hp, hb, boundVar]
  · intro hq
    refine ⟨{ ct with urlTemplate :=
        { ct.urlTemplate with query := vs₁ ++ .queryParam n [] :: vs₂ } }, ?_, rfl⟩
    have hb := bindFirst_first_match n [] vs₁ (.queryParam n w) vs₂ hskip rfl rfl
    simp only [applyArg, hq, hb, boundVar]

/-- C10 witness: binding `""` to the declared `id` parameter of
`GET http://h/{id}` succeeds and the snapshot assembles `http://h`,
the same URL as with `id` never bound. -/
theorem c10_witness :
    ∃ ct2 : curlTemplate,
      applyArg (.pathArg (ascii "id") []) c1Template = (.pathArg (ascii "id") [], ct2, none)
        ∧ urlString ct2.urlTemplate = ascii "http://h" := by
  obtain ⟨ct2, h1, h2⟩ := (c10_bind_empty_string (ascii "id") [] c1Template [] []
      (by decide)).1 (by decide)
  refine ⟨ct2, h1, ?_⟩
  rw [h2]
  decide

/-- C3: when an argument in the invocation's list fails to apply (after a
succeeding prefix), the invocation returns status 0, a nil value, and
that argument's error; the arguments after the failing one are never
applied (the outcome is the same with them removed); the connector's
`Send` is never invoked and no request is even assembled; and for a
`PathArg`/`QueryArg` with no successful match the error message names
the missing parameter. -/
theorem c3_arg_failure_aborts {α : Type}
    (newRequest : Str → Str → Option Str → Except Str Request)
    (conn : Request → Except Str Response) (extract : Response → Except Str α)
    (ct0 : curlTemplate) (args₁ args₂ : List Arg) (bad bad2 : Arg) (ctm : curlTemplate) (e : Str)
    (h₁ : (applyArgs args₁ (copyCurlTemplate ct0)).2.error = none)
    (h₂ : applyArg bad (applyArgs args₁ (copyCurlTemplate ct0)).2 = (bad2, ctm, some e)) :
    invokeOnce newRequest conn extract ct0 (args₁ ++ bad :: args₂)
        = ⟨{ ctm with error := some e }, none, 0, none, some e, false, false⟩
      ∧ invokeOnce newRequest conn extract ct0 (args₁ ++ bad :: args₂)
          = invokeOnce newRequest conn extract ct0 (args₁ ++ [bad])
      ∧ (∀ nm v : Str, bad = .pathArg nm v →
           bindFirst nm v (applyArgs args₁ (copyCurlTemplate ct0)).2.urlTemplate.path = none →
           e = pathArgErrMsg nm v ∧ containsStr nm e)
      ∧ (∀ nm v : Str, bad = .queryArg nm v →
           bindFirst nm v (applyArgs args₁ (copyCurlTemplate ct0)).2.urlTemplate.query = none →
           e = queryArgErrMsg nm v ∧ containsStr nm e) := by
  have hstep : (applyArgs (args₁ ++ bad :: args₂) (copyCurlTemplate ct0)).2
      = { ctm with error := some e } := by
    rw [applyArgs_append args₁ (bad :: args₂) _ h₁]
    simp only [applyArgs, h₂]
  have hstep1 : (applyArgs (args₁ ++ [bad]) (copyCurlTemplate ct0)).2
      = { ctm with error := some e } := by
    rw [applyArgs_append args₁ [bad] _ h₁]
    simp only [applyArgs, h₂]
  refine ⟨?_, ?_, ?_, ?_⟩
  · simp only [invokeOnce, complete, hstep]
  · simp only [invokeOnce, complete, hstep, hstep1]
  · rintro nm v rfl hb
    rw [show applyArg (Arg.pathArg nm v) (applyArgs args₁ (copyCurlTemplate ct0)).2
        = (Arg.pathArg nm v, (applyArgs args₁ (copyCurlTemplate ct0)).2,
           some (pathArgErrMsg nm v))
      from by simp only [applyArg, hb]] at h₂
    injection h₂ with h₂a h₂bc
    injection h₂bc with h₂b h₂c
    injection h₂c with h₂e
    refine ⟨h₂e.symm, ?_⟩
    rw [← h₂e]
    exact ⟨ascii "failed to bind value " ++ quoteByte ++ v ++ quoteByte
        ++ ascii " to URL path parameter " ++ quoteByte, quoteByte,
      by simp [pathArgErrMsg, List.append_assoc]⟩
  · rintro nm v rfl hb
    rw [show applyArg (Arg.queryArg nm v) (applyArgs args₁ (copyCurlTemplate ct0)).2
        = (Arg.queryArg nm v, (applyArgs args₁ (copyCurlTemplate ct0)).2,
           some (queryArgErrMsg nm v))
      from by simp only [applyArg, hb]] at h₂
    injection h₂ with h₂a h₂bc
    injection h₂bc with h₂b h₂c
    injection h₂c with h₂e
    refine ⟨h₂e.symm, ?_⟩
    rw [← h₂e]
    exact ⟨ascii "failed to bind value " ++ quoteByte ++ v ++ quoteByte
        ++ ascii " to URL query parameter " ++ quoteByte, quoteByte,
      by simp [queryArgErrMsg, List.append_assoc]⟩

/-- C3 witness: invoking `GET http://h/{id}` with
`[PathArg("q","x"), PathArg("z","y")]` fails on the first argument with
the message naming `q`, leaves status 0, a nil value, the connector
never invoked, and the second argument never applied. -/
theorem c3_witness :
    invokeOnce newRequestD connD extractD c1Template
        [.pathArg (ascii "q") (ascii "x"), .pathArg (ascii "z") (ascii "y")]
      = ⟨{ c1Template with error := some (pathArgErrMsg (ascii "q") (ascii "x")) }, none, 0,
         none, some (pathArgErrMsg (ascii "q") (ascii "x")), false, false⟩
      ∧ containsStr (ascii "q") (pathArgErrMsg (ascii "q") (ascii "x")) := by
  have h := c3_arg_failure_aborts newRequestD connD extractD c1Template []
      [.pathArg (ascii "z") (ascii "y")] (.pathArg (ascii "q") (ascii "x"))
      (.pathArg (ascii "q") (ascii "x")) c1Template (pathArgErrMsg (ascii "q") (ascii "x"))
      (by decide) (by decide)
  exact ⟨h.1, (h.2.2.1 (ascii "q") (ascii "x") rfl (by decide)).2⟩

/-- C9: once a request is assembled, a transport failure returns status
0, a nil value and the transport error with no decoding attempted; an
extractor failure returns the response's status code alongside the nil
value and the extractor's error; extractor success returns status and
value with a nil error; and across all paths of an invocation a non-nil
error always comes with a nil value, and can accompany a non-zero
status only when the extractor was reached. -/
theorem c9_transport_and_decoding_errors {α : Type}
    (newRequest : Str → Str → Option Str → Except Str Request)
    (conn : Request → Except Str Response) (extract : Response → Except Str α)
    (ct0 : curlTemplate) (args : List Arg) (req : Request)
    (h₁ : (complete ct0 args).2.error = none)
    (h₂ : createRequest newRequest (complete ct0 args).2 = .ok req) :
    (∀ e : Str, conn req = .error e →
       invokeOnce newRequest conn extract ct0 args
         = ⟨(complete ct0 args).2, some req, 0, none, some e, true, false⟩)
      ∧ (∀ (resp : Response) (e : Str), conn req = .ok resp → extract resp = .error e →
           invokeOnce newRequest conn extract ct0 args
             = ⟨(complete ct0 args).2, some req, resp.status, none, some e, true, true⟩)
      ∧ (∀ (resp : Response) (v : α), conn req = .ok resp → extract resp = .ok v →
           invokeOnce newRequest conn extract ct0 args
             = ⟨(complete ct0 args).2, some req, resp.status, some v, none, true, true⟩)
      ∧ ((invokeOnce newRequest conn extract ct0 args).error ≠ none →
           (invokeOnce newRequest conn extract ct0 args).value = none)
      ∧ ((invokeOnce newRequest conn extract ct0 args).error ≠ none →
           (invokeOnce newRequest conn extract ct0 args).extractInvoked = false →
           (invokeOnce newRequest conn extract ct0 args).status = 0) := by
  refine ⟨?_, ?_, ?_, ?_, ?_⟩
  · intro e hc
    simp only [invokeOnce, h₁, h₂, hc]
  · intro resp e hc he
    simp only [invokeOnce, h₁, h₂, hc, he]
  · intro resp v hc he
    simp only [invokeOnce, h₁, h₂, hc, he]
  · simp only [invokeOnce, h₁, h₂]
    cases hc : conn req with
    | error e => simp
    | ok resp =>
      cases he : extract resp with
      | error e => simp [he]
      | ok v => simp [he]
  · simp only [invokeOnce, h₁, h₂]
    cases hc : conn req with
    | error e => simp
    | ok resp =>
      cases he : extract resp with
      | error e => simp [he]
      | ok v => simp [he]

/-- C9 witness: against `GET http://h` (no arguments), a failing
connector yields `(0, nil, "down")` with no extraction, and a failing
extractor yields `(200, nil, "bad json")`. -/
theorem c9_witness :
    invokeOnce newRequestD (fun _ => .error (ascii "down")) extractD c1Template []
        = ⟨c1Template, some ⟨ascii "GET", ascii "http://h", none, [], none⟩, 0, none,
           some (ascii "down"), true, false⟩
      ∧ invokeOnce newRequestD connD (fun _ => (.error (ascii "bad json") : Except Str Nat))
            c1Template []
          = ⟨c1Template, some ⟨ascii "GET", ascii "http://h", none, [], none⟩, 200, none,
             some (ascii "bad json"), true, true⟩ := by
  constructor
  · exact (c9_transport_and_decoding_errors newRequestD (fun _ => .error (ascii "down"))
      extractD c1Template [] ⟨ascii "GET", ascii "http://h", none, [], none⟩
      (by decide) (by decide)).1 (ascii "down") rfl
  · exact (c9_transport_and_decoding_errors newRequestD connD
      (fun _ => (.error (ascii "bad json") : Except Str Nat)) c1Template []
      ⟨ascii "GET", ascii "http://h", none, [], none⟩
      (by decide) (by decide)).2.1 ⟨200, []⟩ (ascii "bad json") rfl rfl
